import Mathlib

/-!
Verification development for the Pattern-Go-UT-Helper service (src/app.py).

The service is a thin FastAPI proxy: it validates a request, renders a
fixed-template prompt, performs one outbound call to a generative-text API,
and maps the upstream outcome to a response or a typed failure.  We embed
the two relevant request handlers, `generate_unit_tests` (POST /generate-ut)
and `upload_source` (POST /upload-source), as pure Lean functions.

Modelling conventions:
- Python strings are Lean `String`s; `str.strip()` is `pyStrip` (ASCII
  whitespace, the characters Python strips from ASCII text).
- JSON values (and the Python values they parse to) are the inductive `Json`;
  Python `None` and JSON `null` are both `Json.null`.
- Python truthiness is `Json.isTruthy` / emptiness tests on strings.
- `dict.get(k)` is `Json.get` returning `Except` to model the
  AttributeError raised when the receiver is not a dict; subscripting
  `x[k]` / `x[i]` inside the `try` block is `Json.index` / `Json.idx`
  returning `Option`, since every exception there is caught alike.
- The outbound HTTP call is abstracted by an `UpstreamOutcome` argument
  (a timeout, or a status code with an already-parsed JSON body); the
  handler additionally returns the `OutboundRequest` it issued, if any,
  so that claims about the call being made or skipped are statable.
- An uncaught Python exception propagating out of the handler is
  `HandlerResult.raised` with the exception type name.
-/

/-- JSON values, also standing for the Python values they parse to
(`null` doubles as Python `None`). Numbers are integers: the service
touches no fractional numbers. -/
inductive Json where
| null : Json
| bool (b : Bool) : Json
| num (n : Int) : Json
| str (s : String) : Json
| arr (xs : List Json) : Json
| obj (kvs : List (String × Json)) : Json

/-- Python truthiness of a value (`bool(x)`). -/
def Json.isTruthy : Json → Bool
| .null => false
| .bool b => b
| .num n => n != 0
| .str s => s != ""
| .arr xs => !xs.isEmpty
| .obj kvs => !kvs.isEmpty

/-- Python `a or b`: `a` if truthy, else `b`. -/
def pyOr (a b : Json) : Json :=
  if a.isTruthy then a else b

/-- Python `dict.get(k)` with default `None`; on a non-dict receiver the
attribute access raises `AttributeError`. -/
def Json.get (j : Json) (k : String) : Except String Json :=
  match j with
  | .obj kvs => .ok ((kvs.lookup k).getD .null)
  | _ => .error "AttributeError"

/-- Subscripting `x[k]` with a string key inside the guarded `try` block:
any failure (missing key, non-dict receiver) is an exception, all of which
the handler catches alike, so `Option` suffices. -/
def Json.index (j : Json) (k : String) : Option Json :=
  match j with
  | .obj kvs => kvs.lookup k
  | _ => none

/-- Subscripting `x[i]` with an integer index inside the guarded `try`
block. A Python string is also integer-indexable, but the subsequent
string-key subscript then raises, caught by the same `except`, so mapping
non-lists to `none` yields the same observable outcome. -/
def Json.idx (j : Json) (i : Nat) : Option Json :=
  match j with
  | .arr xs => xs.get? i
  | _ => none

/-- ASCII whitespace stripped by Python `str.strip()`. -/
def isPySpace (c : Char) : Bool :=
  c == ' ' || c == '\t' || c == '\n' || c == '\r' || c == '\x0b' || c == '\x0c'

/-- Python `str.strip()`: drop leading and trailing whitespace. -/
def pyStrip (s : String) : String :=
  String.mk (((s.data.dropWhile isPySpace).reverse.dropWhile isPySpace).reverse)

/-- Python slicing `s[:n]`: the first `n` characters. -/
def pySlice (s : String) (n : Nat) : String :=
  String.mk (s.data.take n)

/-- Python `s.endswith(t)`. -/
def pyEndsWith (s t : String) : Bool :=
  t.data.isSuffixOf s.data

/-- Hexadecimal digit character (lowercase), as Python json uses. -/
def hexDigitChar (d : Nat) : Char :=
  if d < 10 then Char.ofNat (48 + d) else Char.ofNat (87 + (d - 10))

/-- Four-digit lowercase hexadecimal rendering of `n < 0x10000`. -/
def hex4 (n : Nat) : String :=
  String.mk [hexDigitChar (n / 4096 % 16), hexDigitChar (n / 256 % 16),
    hexDigitChar (n / 16 % 16), hexDigitChar (n % 16)]

/-- Python json `\uXXXX` escape, with a surrogate pair above the BMP. -/
def uEscape (n : Nat) : String :=
  if n < 0x10000 then "\\u" ++ hex4 n
  else
    let m := n - 0x10000
    "\\u" ++ hex4 (0xd800 + m / 0x400) ++ "\\u" ++ hex4 (0xdc00 + m % 0x400)

/-- Escaping of one character in a JSON string literal, following Python
`json.dumps` defaults (`ensure_ascii=True`): printable ASCII other than
quote and backslash stands for itself, everything else is escaped. -/
def escapeJsonChar (c : Char) : String :=
  if c == '"' then "\\\""
  else if c == '\\' then "\\\\"
  else if c == '\n' then "\\n"
  else if c == '\r' then "\\r"
  else if c == '\t' then "\\t"
  else if c == '\x08' then "\\b"
  else if c == '\x0c' then "\\f"
  else if c.toNat < 0x20 || c.toNat > 0x7e then uEscape c.toNat
  else String.mk [c]

/-- JSON string literal rendering, Python `json.dumps` style. -/
def dumpStr (s : String) : String :=
  "\"" ++ String.join (s.data.map escapeJsonChar) ++ "\""

mutual

/-- Python `json.dumps(x)` with default separators. -/
def Json.dumps : Json → String
| .null => "null"
| .bool true => "true"
| .bool false => "false"
| .num n => toString n
| .str s => dumpStr s
| .arr xs => "[" ++ dumpsItems xs ++ "]"
| .obj kvs => "\x7b" ++ dumpsPairs kvs ++ "\x7d"

/-- Comma-separated rendering of array items. -/
def dumpsItems : List Json → String
| [] => ""
| [x] => Json.dumps x
| x :: y :: xs => Json.dumps x ++ ", " ++ dumpsItems (y :: xs)

/-- Comma-separated rendering of object entries. -/
def dumpsPairs : List (String × Json) → String
| [] => ""
| [(k, v)] => dumpStr k ++ ": " ++ Json.dumps v
| (k, v) :: p :: kvs => dumpStr k ++ ": " ++ Json.dumps v ++ ", " ++ dumpsPairs (p :: kvs)

end

/-- Request body of POST /generate-ut (`UTGenerationRequest` in app.py). -/
structure UTGenerationRequest where
  pattern_content : String
  source_code : String
  file_name : String
  pattern_name : String
  additional_context : Option String

/-- Success body of POST /generate-ut (`UTGenerationResponse` in app.py). -/
structure UTGenerationResponse where
  unit_tests : String
  pattern_used : String
  file_analyzed : String

/-- Request body of POST /upload-source (`SourceCodeUpload` in app.py). -/
structure SourceCodeUpload where
  source_code : String
  file_name : String
  package_name : Option String

/-- Outcome of the single outbound call: the transport timed out, or the
upstream replied with a status code and a parsed JSON body. -/
inductive UpstreamOutcome where
| timeout : UpstreamOutcome
| reply (status : Nat) (body : Json) : UpstreamOutcome

/-- The outbound request the handler issues: the timeout (seconds) given to
the HTTP client and the JSON body posted to the model endpoint. -/
structure OutboundRequest where
  timeoutSeconds : Nat
  body : Json

/-- What a /generate-ut invocation produces: a success body, an
`HTTPException(status_code, detail)`, or an uncaught exception of the named
type propagating out of the handler. -/
inductive HandlerResult where
| ok (resp : UTGenerationResponse) : HandlerResult
| httpError (status : Nat) (detail : Json) : HandlerResult
| raised (exc : String) : HandlerResult

/-- Python `payload.additional_context or "None provided"`: `None` and the
empty string are falsy. -/
def pyOrStr : Option String → String → String
| none, d => d
| some s, d => if s == "" then d else s

/-- The f-string template of app.py lines 118-146, as a function of the
already-stripped four fields and the context expression value. -/
def buildPrompt (pattern_name pattern_content file_name source_code ctx : String) : String :=
  "\nYou are an expert Go developer tasked with generating unit tests based on a specific pattern.\n\nPATTERN DEFINITION:\nPattern Name: "
  ++ pattern_name
  ++ "\nPattern Content:\n"
  ++ pattern_content
  ++ "\n\nSOURCE CODE TO TEST:\nFile Name: "
  ++ file_name
  ++ "\n"
  ++ source_code
  ++ "\n\nADDITIONAL CONTEXT:\n"
  ++ ctx
  ++ "\n\nINSTRUCTIONS:\n1. Analyze the provided pattern to understand the testing methodology\n2. Study the source code structure, functions, and interfaces\n3. Generate comprehensive unit tests following the pattern\x27s style and conventions\n4. Include test cases for:\n   - Happy path scenarios\n   - Edge cases\n   - Error conditions\n   - Mock usage (if shown in pattern)\n5. Ensure tests are idiomatic Go and follow the pattern\x27s approach\n6. Provide ONLY the generated test code, no explanations\n\nGenerate the unit tests:\n"

/-- The prompt a /generate-ut request renders: required fields stripped
first (app.py lines 109-112), `additional_context` taken as written in the
template expression. -/
def renderedPrompt (payload : UTGenerationRequest) : String :=
  buildPrompt (pyStrip payload.pattern_name) (pyStrip payload.pattern_content)
    (pyStrip payload.file_name) (pyStrip payload.source_code)
    (pyOrStr payload.additional_context "None provided")

/-- The JSON body posted upstream:
`{"contents": [{"parts": [{"text": prompt}]}]}`. -/
def requestBody (payload : UTGenerationRequest) : Json :=
  .obj [("contents", .arr [.obj [("parts", .arr [.obj [("text", .str (renderedPrompt payload))]])]])]

/-- Line 155: `(data.get("error") or \x7b\x7d).get("message") or "Upstream error"`. -/
def upstreamErrorMsg (data : Json) : Except String Json :=
  match data.get "error" with
  | .error e => .error e
  | .ok err =>
    match (pyOr err (.obj [])).get "message" with
    | .error e => .error e
    | .ok m => .ok (pyOr m (.str "Upstream error"))

/-- Line 159 before `.strip()`:
`data["candidates"][0]["content"]["parts"][0]["text"]`, `none` when any
step (or the final `.strip()` on a non-string) raises — all caught by the
surrounding `except`. -/
def extractTextRaw (data : Json) : Option String := do
  let cands ← data.index "candidates"
  let c0 ← cands.idx 0
  let content ← c0.index "content"
  let parts ← content.index "parts"
  let p0 ← parts.idx 0
  let t ← p0.index "text"
  match t with
  | .str s => some s
  | _ => none

/-- POST /generate-ut handler (app.py lines 106-167), parameterised by the
upstream outcome. The first component records the outbound request issued,
`none` when validation failed before any call. -/
def generate_unit_tests (payload : UTGenerationRequest) (upstream : UpstreamOutcome) :
    Option OutboundRequest × HandlerResult :=
  let pattern_content := pyStrip payload.pattern_content
  let source_code := pyStrip payload.source_code
  let file_name := pyStrip payload.file_name
  let pattern_name := pyStrip payload.pattern_name
  if pattern_content = "" ∨ source_code = "" ∨ file_name = "" ∨ pattern_name = "" then
    (none, .httpError 400 (.str "All fields (pattern_content, source_code, file_name, pattern_name) are required"))
  else
    let call : OutboundRequest := ⟨60, requestBody payload⟩
    match upstream with
    | .timeout => (some call, .raised "httpx.TimeoutException")
    | .reply status data =>
      if status ≠ 200 then
        match upstreamErrorMsg data with
        | .error exc => (some call, .raised exc)
        | .ok msg => (some call, .httpError status msg)
      else
        match extractTextRaw data with
        | none => (some call, .httpError 502
            (.str ("Unexpected API response: " ++ pySlice (Json.dumps data) 800)))
        | some t => (some call, .ok ⟨pyStrip t, pattern_name, file_name⟩)

/-- What a /upload-source invocation produces. -/
inductive UploadResult where
| ok (status message file_name : String) (package_name : Option String) : UploadResult
| httpError (status : Nat) (detail : String) : UploadResult

/-- POST /upload-source handler (app.py lines 84-104). -/
def upload_source (payload : SourceCodeUpload) : UploadResult :=
  let source_code := pyStrip payload.source_code
  let file_name := pyStrip payload.file_name
  if source_code = "" then .httpError 400 "Source code is required"
  else if file_name = "" then .httpError 400 "File name is required"
  else if !(pyEndsWith file_name ".go") then .httpError 400 "File must be a Go source file (.go)"
  else .ok "success" ("Source file \x27" ++ file_name ++ "\x27 uploaded successfully")
    file_name payload.package_name

/-- Substring containment: `small` occurs contiguously inside `big`. -/
def strContains (big small : String) : Prop :=
  small.data <:+: big.data

/- ------------------------------------------------------------------ -/
/- Helper lemmas                                                       -/
/- ------------------------------------------------------------------ -/

theorem infix_extend_left {α : Type} {x B : List α} (A : List α) (h : x <:+: B) :
    x <:+: A ++ B := by
  obtain ⟨s, t, rfl⟩ := h
  exact ⟨A ++ s, t, by simp⟩

theorem infix_here {α : Type} (x B : List α) : x <:+: x ++ B :=
  ⟨[], B, by simp⟩

theorem pySlice_length_le (s : String) (n : Nat) : (pySlice s n).length ≤ n := by
  simp [pySlice, String.length_mk, List.length_take]

theorem upstreamErrorMsg_msg (kvs ekvs : List (String × Json)) (M : String)
    (he : kvs.lookup "error" = some (.obj ekvs))
    (hm : ekvs.lookup "message" = some (.str M)) (hM : M ≠ "") :
    upstreamErrorMsg (.obj kvs) = .ok (.str M) := by
  cases ekvs with
  | nil => simp at hm
  | cons hd tl =>
    simp [upstreamErrorMsg, Json.get, he, pyOr, Json.isTruthy, hm, hM]

theorem upstreamErrorMsg_fallback (kvs : List (String × Json))
    (ekvs : List (String × Json))
    (herr : kvs.lookup "error" = none ∨ kvs.lookup "error" = some .null ∨
      (kvs.lookup "error" = some (.obj ekvs) ∧
        (ekvs.lookup "message" = none ∨ ekvs.lookup "message" = some .null ∨
          ekvs.lookup "message" = some (.str "")))) :
    upstreamErrorMsg (.obj kvs) = .ok (.str "Upstream error") := by
  rcases herr with he | he | ⟨he, hm⟩
  · simp [upstreamErrorMsg, Json.get, he, pyOr, Json.isTruthy]
  · simp [upstreamErrorMsg, Json.get, he, pyOr, Json.isTruthy]
  · cases ekvs with
    | nil =>
      simp [upstreamErrorMsg, Json.get, he, pyOr, Json.isTruthy]
    | cons hd tl =>
      rcases hm with hm | hm | hm <;>
        simp [upstreamErrorMsg, Json.get, he, pyOr, Json.isTruthy, hm]

/- ------------------------------------------------------------------ -/
/- Claim theorems                                                      -/
/- ------------------------------------------------------------------ -/

/-- Claim C1: a /generate-ut request in which any of the four required
fields is empty or whitespace-only after trimming is rejected with status
400, and no outbound request is issued (the result is the same whatever
the upstream would have answered). -/
theorem c1_empty_field_rejected_without_call (payload : UTGenerationRequest)
    (hbad : pyStrip payload.pattern_content = "" ∨ pyStrip payload.source_code = "" ∨
      pyStrip payload.file_name = "" ∨ pyStrip payload.pattern_name = "")
    (upstream : UpstreamOutcome) :
    generate_unit_tests payload upstream =
      (none, .httpError 400
        (.str "All fields (pattern_content, source_code, file_name, pattern_name) are required")) := by
  simp only [generate_unit_tests]
  rw [if_pos hbad]

/-- Witness for C1: the whitespace-only pattern_content " " is rejected. -/
theorem c1_witness :
    (pyStrip " " = "" ∨ pyStrip "S" = "" ∨ pyStrip "a.go" = "" ∨ pyStrip "N" = "") ∧
    generate_unit_tests ⟨" ", "S", "a.go", "N", none⟩ (.reply 200 (.obj [])) =
      (none, .httpError 400
        (.str "All fields (pattern_content, source_code, file_name, pattern_name) are required")) :=
  ⟨Or.inl (by decide),
   c1_empty_field_rejected_without_call ⟨" ", "S", "a.go", "N", none⟩ (Or.inl (by decide)) _⟩

/-- Claim C7: a /upload-source request whose trimmed source_code and
file_name are non-empty but whose trimmed file_name does not end in ".go"
is rejected with status 400 citing the required suffix. -/
theorem c7_bad_suffix_rejected (payload : SourceCodeUpload)
    (h1 : pyStrip payload.source_code ≠ "")
    (h2 : pyStrip payload.file_name ≠ "")
    (h3 : pyEndsWith (pyStrip payload.file_name) ".go" = false) :
    upload_source payload = .httpError 400 "File must be a Go source file (.go)" := by
  simp [upload_source, h1, h2, h3]

/-- Witness for C7: file_name "a.txt". -/
theorem c7_witness :
    (pyStrip "S" ≠ "" ∧ pyStrip "a.txt" ≠ "" ∧ pyEndsWith (pyStrip "a.txt") ".go" = false) ∧
    upload_source ⟨"S", "a.txt", none⟩ = .httpError 400 "File must be a Go source file (.go)" :=
  ⟨⟨by decide, by decide, by decide⟩,
   c7_bad_suffix_rejected ⟨"S", "a.txt", none⟩ (by decide) (by decide) (by decide)⟩

/-- Claim C10: /upload-source validation is ordered — empty trimmed
source_code first, then empty trimmed file_name, and only then the ".go"
suffix on the trimmed file_name; a trimmed file_name ending in ".go" is
accepted even when the raw file_name carried surrounding whitespace. -/
theorem c10_upload_source_validation_order (payload : SourceCodeUpload) :
    (pyStrip payload.source_code = "" →
      upload_source payload = .httpError 400 "Source code is required") ∧
    (pyStrip payload.source_code ≠ "" → pyStrip payload.file_name = "" →
      upload_source payload = .httpError 400 "File name is required") ∧
    (pyStrip payload.source_code ≠ "" → pyStrip payload.file_name ≠ "" →
      pyEndsWith (pyStrip payload.file_name) ".go" = true →
      upload_source payload = .ok "success"
        ("Source file \x27" ++ pyStrip payload.file_name ++ "\x27 uploaded successfully")
        (pyStrip payload.file_name) payload.package_name) := by
  refine ⟨fun h => ?_, fun h1 h2 => ?_, fun h1 h2 h3 => ?_⟩
  · simp [upload_source, h]
  · simp [upload_source, h1, h2]
  · simp [upload_source, h1, h2, h3]

/-- Witness for C10: a whitespace-only file_name draws the
"File name is required" error, and "  a.go  " is accepted. -/
theorem c10_witness :
    upload_source ⟨"S", " ", none⟩ = .httpError 400 "File name is required" ∧
    upload_source ⟨"S", "  a.go  ", none⟩ = .ok "success"
      ("Source file \x27" ++ pyStrip "  a.go  " ++ "\x27 uploaded successfully")
      (pyStrip "  a.go  ") none :=
  ⟨(c10_upload_source_validation_order ⟨"S", " ", none⟩).2.1 (by decide) (by decide),
   (c10_upload_source_validation_order ⟨"S", "  a.go  ", none⟩).2.2
     (by decide) (by decide) (by decide)⟩

theorem strContains_empty (big : String) : strContains big "" :=
  ⟨[], big.data, rfl⟩

theorem str_append_assoc (a b c : String) : a ++ b ++ c = a ++ (b ++ c) := by
  apply String.ext
  rw [String.data_append, String.data_append, String.data_append, String.data_append]
  exact List.append_assoc _ _ _

theorem strContains_here (x B : String) : strContains (x ++ B) x := by
  unfold strContains
  rw [String.data_append]
  exact infix_here _ _

theorem strContains_skip (A : String) {B x : String} (h : strContains B x) :
    strContains (A ++ B) x := by
  unfold strContains at h ⊢
  rw [String.data_append]
  exact infix_extend_left _ h

theorem prompt_contains_parts (n c f s ctx : String) :
    strContains (buildPrompt n c f s ctx) n ∧
    strContains (buildPrompt n c f s ctx) c ∧
    strContains (buildPrompt n c f s ctx) f ∧
    strContains (buildPrompt n c f s ctx) s ∧
    strContains (buildPrompt n c f s ctx) ctx := by
  refine ⟨?_, ?_, ?_, ?_, ?_⟩ <;>
    simp only [buildPrompt, str_append_assoc]
  · exact strContains_skip _ (strContains_here _ _)
  · exact strContains_skip _ (strContains_skip _ (strContains_skip _ (strContains_here _ _)))
  · exact strContains_skip _ (strContains_skip _ (strContains_skip _ (strContains_skip _
      (strContains_skip _ (strContains_here _ _)))))
  · exact strContains_skip _ (strContains_skip _ (strContains_skip _ (strContains_skip _
      (strContains_skip _ (strContains_skip _ (strContains_skip _ (strContains_here _ _)))))))
  · exact strContains_skip _ (strContains_skip _ (strContains_skip _ (strContains_skip _
      (strContains_skip _ (strContains_skip _ (strContains_skip _ (strContains_skip _
      (strContains_skip _ (strContains_here _ _)))))))))

/-- Claim C5: for every valid /generate-ut request the rendered prompt (a
pure, hence deterministic, function of the request) contains the trimmed
pattern name, pattern content, file name and source code, and the supplied
additional_context — the literal placeholder "None provided" when it is
absent. -/
theorem c5_prompt_contains_all_fields (payload : UTGenerationRequest)
    (h1 : pyStrip payload.pattern_content ≠ "") (h2 : pyStrip payload.source_code ≠ "")
    (h3 : pyStrip payload.file_name ≠ "") (h4 : pyStrip payload.pattern_name ≠ "") :
    strContains (renderedPrompt payload) (pyStrip payload.pattern_name) ∧
    strContains (renderedPrompt payload) (pyStrip payload.pattern_content) ∧
    strContains (renderedPrompt payload) (pyStrip payload.file_name) ∧
    strContains (renderedPrompt payload) (pyStrip payload.source_code) ∧
    (∀ cc, payload.additional_context = some cc → strContains (renderedPrompt payload) cc) ∧
    (payload.additional_context = none → strContains (renderedPrompt payload) "None provided") := by
  obtain ⟨hn, hc, hf, hs, hctx⟩ := prompt_contains_parts (pyStrip payload.pattern_name)
    (pyStrip payload.pattern_content) (pyStrip payload.file_name)
    (pyStrip payload.source_code) (pyOrStr payload.additional_context "None provided")
  refine ⟨hn, hc, hf, hs, ?_, ?_⟩
  · intro cc hcx
    by_cases h0 : cc = ""
    · subst h0
      exact strContains_empty _
    · have he : pyOrStr payload.additional_context "None provided" = cc := by
        rw [hcx]
        simp [pyOrStr, h0]
      unfold renderedPrompt
      rw [← he]
      exact hctx
  · intro hnone
    unfold renderedPrompt
    rw [hnone]
    rw [hnone] at hctx
    exact hctx

/-- Witness for C5: the scenario request with no additional context. -/
theorem c5_witness :
    (pyStrip "P" ≠ "" ∧ pyStrip "S" ≠ "" ∧ pyStrip "a.go" ≠ "" ∧ pyStrip "N" ≠ "") ∧
    strContains (renderedPrompt ⟨"P", "S", "a.go", "N", none⟩) (pyStrip "N") ∧
    strContains (renderedPrompt ⟨"P", "S", "a.go", "N", none⟩) (pyStrip "P") ∧
    strContains (renderedPrompt ⟨"P", "S", "a.go", "N", none⟩) (pyStrip "a.go") ∧
    strContains (renderedPrompt ⟨"P", "S", "a.go", "N", none⟩) (pyStrip "S") ∧
    strContains (renderedPrompt ⟨"P", "S", "a.go", "N", none⟩) "None provided" :=
  ⟨⟨by decide, by decide, by decide, by decide⟩,
   (c5_prompt_contains_all_fields ⟨"P", "S", "a.go", "N", none⟩
     (by decide) (by decide) (by decide) (by decide)).1,
   (c5_prompt_contains_all_fields ⟨"P", "S", "a.go", "N", none⟩
     (by decide) (by decide) (by decide) (by decide)).2.1,
   (c5_prompt_contains_all_fields ⟨"P", "S", "a.go", "N", none⟩
     (by decide) (by decide) (by decide) (by decide)).2.2.1,
   (c5_prompt_contains_all_fields ⟨"P", "S", "a.go", "N", none⟩
     (by decide) (by decide) (by decide) (by decide)).2.2.2.1,
   (c5_prompt_contains_all_fields ⟨"P", "S", "a.go", "N", none⟩
     (by decide) (by decide) (by decide) (by decide)).2.2.2.2.2 rfl⟩

set_option maxRecDepth 16384 in
/-- Counterexample to claim C6: `additional_context` is NOT trimmed before
the prompt is rendered. The contexts " x " and "x" trim to the same string,
so under the claim both requests would render the same prompt; the code
renders different prompts (it embeds the raw context). -/
theorem c6_counterexample :
    pyStrip " x " = pyStrip "x" ∧
    renderedPrompt ⟨"P", "S", "a.go", "N", some " x "⟩ ≠
      renderedPrompt ⟨"P", "S", "a.go", "N", some "x"⟩ := by
  constructor
  · rfl
  · decide

/-- Claim C6 as amended: the four required textual fields are trimmed
before the prompt is rendered — the prompt depends on them only through
their trimmed values — but `additional_context` is embedded as supplied,
untrimmed. -/
theorem c6_required_fields_trimmed_before_render (p q : UTGenerationRequest)
    (hc : pyStrip p.pattern_content = pyStrip q.pattern_content)
    (hs : pyStrip p.source_code = pyStrip q.source_code)
    (hf : pyStrip p.file_name = pyStrip q.file_name)
    (hn : pyStrip p.pattern_name = pyStrip q.pattern_name)
    (hctx : p.additional_context = q.additional_context) :
    renderedPrompt p = renderedPrompt q := by
  unfold renderedPrompt
  rw [hc, hs, hf, hn, hctx]

/-- Witness for the amended C6: a request whose pattern_content carries
surrounding whitespace renders the same prompt as its trimmed twin. -/
theorem c6_witness :
    (pyStrip " P " = pyStrip "P" ∧ pyStrip "S" = pyStrip "S" ∧ pyStrip "a.go" = pyStrip "a.go" ∧
      pyStrip "N" = pyStrip "N" ∧ (some "ctx" : Option String) = some "ctx") ∧
    renderedPrompt ⟨" P ", "S", "a.go", "N", some "ctx"⟩ =
      renderedPrompt ⟨"P", "S", "a.go", "N", some "ctx"⟩ :=
  ⟨⟨by decide, rfl, rfl, rfl, rfl⟩,
   c6_required_fields_trimmed_before_render ⟨" P ", "S", "a.go", "N", some "ctx"⟩
     ⟨"P", "S", "a.go", "N", some "ctx"⟩ (by decide) rfl rfl rfl rfl⟩

/-- Counterexample to claim C2: the response does not echo `pattern_name`
and `file_name` exactly as supplied — it echoes their trimmed values. With
pattern_name " N " and file_name " a.go " (valid: non-empty after
trimming) the scenario reply yields pattern_used "N", not " N ". -/
theorem c2_counterexample :
    (generate_unit_tests ⟨"P", "S", " a.go ", " N ", none⟩
      (.reply 200 (.obj [("candidates", .arr [.obj [("content",
        .obj [("parts", .arr [.obj [("text", .str "  test code  ")]])])]])]))).2 =
      .ok ⟨"test code", "N", "a.go"⟩ ∧
    ("N" : String) ≠ " N " := by
  constructor
  · rfl
  · decide

/-- Claim C2 as amended: for every valid /generate-ut request whose
upstream reply is 200 carrying nested text T, `unit_tests` equals T with
surrounding whitespace trimmed, and `pattern_used`/`file_analyzed` echo
the request's pattern_name/file_name after trimming. -/
theorem c2_success_trims_and_echoes (payload : UTGenerationRequest) (T : String) (data : Json)
    (h1 : pyStrip payload.pattern_content ≠ "") (h2 : pyStrip payload.source_code ≠ "")
    (h3 : pyStrip payload.file_name ≠ "") (h4 : pyStrip payload.pattern_name ≠ "")
    (hT : extractTextRaw data = some T) :
    (generate_unit_tests payload (.reply 200 data)).2 =
      .ok ⟨pyStrip T, pyStrip payload.pattern_name, pyStrip payload.file_name⟩ := by
  simp [generate_unit_tests, h1, h2, h3, h4, hT]

/-- Witness for the amended C2: the spec scenario. -/
theorem c2_witness :
    (pyStrip "P" ≠ "" ∧ pyStrip "S" ≠ "" ∧ pyStrip "a.go" ≠ "" ∧ pyStrip "N" ≠ "" ∧
      extractTextRaw (.obj [("candidates", .arr [.obj [("content",
        .obj [("parts", .arr [.obj [("text", .str "  test code  ")]])])]])]) =
        some "  test code  ") ∧
    (generate_unit_tests ⟨"P", "S", "a.go", "N", none⟩
      (.reply 200 (.obj [("candidates", .arr [.obj [("content",
        .obj [("parts", .arr [.obj [("text", .str "  test code  ")]])])]])]))).2 =
      .ok ⟨pyStrip "  test code  ", pyStrip "N", pyStrip "a.go"⟩ :=
  ⟨⟨by decide, by decide, by decide, by decide, rfl⟩,
   c2_success_trims_and_echoes ⟨"P", "S", "a.go", "N", none⟩ "  test code  "
     (.obj [("candidates", .arr [.obj [("content",
       .obj [("parts", .arr [.obj [("text", .str "  test code  ")]])])]])])
     (by decide) (by decide) (by decide) (by decide) rfl⟩

/-- Claim C3: on a non-success upstream status, the endpoint fails with
the SAME status; the detail is the upstream error object message M when a
(non-empty) one is present, and the generic fallback "Upstream error"
when the body carries no error object at all. -/
theorem c3_upstream_error_passthrough (payload : UTGenerationRequest) (status : Nat)
    (kvs ekvs : List (String × Json)) (M : String)
    (h1 : pyStrip payload.pattern_content ≠ "") (h2 : pyStrip payload.source_code ≠ "")
    (h3 : pyStrip payload.file_name ≠ "") (h4 : pyStrip payload.pattern_name ≠ "")
    (hs : status ≠ 200) :
    (kvs.lookup "error" = some (.obj ekvs) → ekvs.lookup "message" = some (.str M) →
      M ≠ "" →
      (generate_unit_tests payload (.reply status (.obj kvs))).2 =
        .httpError status (.str M)) ∧
    (kvs.lookup "error" = none →
      (generate_unit_tests payload (.reply status (.obj kvs))).2 =
        .httpError status (.str "Upstream error")) := by
  constructor
  · intro he hm hM
    have hmsg := upstreamErrorMsg_msg kvs ekvs M he hm hM
    simp [generate_unit_tests, h1, h2, h3, h4, hs, hmsg]
  · intro he
    have hmsg := upstreamErrorMsg_fallback kvs [] (Or.inl he)
    simp [generate_unit_tests, h1, h2, h3, h4, hs, hmsg]

/-- Witness for C3: upstream 500 with message "boom" is passed through;
upstream 500 with an empty body object draws the fallback. -/
theorem c3_witness :
    (pyStrip "P" ≠ "" ∧ pyStrip "S" ≠ "" ∧ pyStrip "a.go" ≠ "" ∧ pyStrip "N" ≠ "" ∧
      (500 : Nat) ≠ 200) ∧
    (generate_unit_tests ⟨"P", "S", "a.go", "N", none⟩
        (.reply 500 (.obj [("error", .obj [("message", .str "boom")])]))).2 =
      .httpError 500 (.str "boom") ∧
    (generate_unit_tests ⟨"P", "S", "a.go", "N", none⟩ (.reply 500 (.obj []))).2 =
      .httpError 500 (.str "Upstream error") :=
  ⟨⟨by decide, by decide, by decide, by decide, by decide⟩,
   (c3_upstream_error_passthrough ⟨"P", "S", "a.go", "N", none⟩ 500
      [("error", .obj [("message", .str "boom")])] [("message", .str "boom")] "boom"
      (by decide) (by decide) (by decide) (by decide) (by decide)).1 rfl rfl (by decide),
   (c3_upstream_error_passthrough ⟨"P", "S", "a.go", "N", none⟩ 500 [] [] ""
      (by decide) (by decide) (by decide) (by decide) (by decide)).2 rfl⟩

/-- Claim C9: on a non-success upstream status, when the body's error
field is null, or an error object is present whose message is absent, null
or the empty string, the surfaced detail is the fallback "Upstream error". -/
theorem c9_degenerate_message_fallback (payload : UTGenerationRequest) (status : Nat)
    (kvs ekvs : List (String × Json))
    (h1 : pyStrip payload.pattern_content ≠ "") (h2 : pyStrip payload.source_code ≠ "")
    (h3 : pyStrip payload.file_name ≠ "") (h4 : pyStrip payload.pattern_name ≠ "")
    (hs : status ≠ 200)
    (herr : kvs.lookup "error" = some .null ∨
      (kvs.lookup "error" = some (.obj ekvs) ∧
        (ekvs.lookup "message" = none ∨ ekvs.lookup "message" = some .null ∨
          ekvs.lookup "message" = some (.str "")))) :
    (generate_unit_tests payload (.reply status (.obj kvs))).2 =
      .httpError status (.str "Upstream error") := by
  have hmsg := upstreamErrorMsg_fallback kvs ekvs (Or.inr herr)
  simp [generate_unit_tests, h1, h2, h3, h4, hs, hmsg]

/-- Witness for C9: body `{error: {message: ""}}` on a 500 reply. -/
theorem c9_witness :
    (pyStrip "P" ≠ "" ∧ pyStrip "S" ≠ "" ∧ pyStrip "a.go" ≠ "" ∧ pyStrip "N" ≠ "" ∧
      (500 : Nat) ≠ 200 ∧
      ([("error", Json.obj [("message", Json.str "")])].lookup "error" =
        some (.obj [("message", Json.str "")]))) ∧
    (generate_unit_tests ⟨"P", "S", "a.go", "N", none⟩
        (.reply 500 (.obj [("error", .obj [("message", .str "")])]))).2 =
      .httpError 500 (.str "Upstream error") :=
  ⟨⟨by decide, by decide, by decide, by decide, by decide, rfl⟩,
   c9_degenerate_message_fallback ⟨"P", "S", "a.go", "N", none⟩ 500
     [("error", .obj [("message", .str "")])] [("message", .str "")]
     (by decide) (by decide) (by decide) (by decide) (by decide)
     (Or.inr ⟨rfl, Or.inr (Or.inr rfl)⟩)⟩

/-- Claim C4: on a 200 upstream reply whose payload does not contain the
expected nested text path, the endpoint fails with the fixed status 502
and a diagnostic serialization of the raw payload truncated to at most
800 characters. -/
theorem c4_malformed_reply_502_truncated (payload : UTGenerationRequest) (data : Json)
    (h1 : pyStrip payload.pattern_content ≠ "") (h2 : pyStrip payload.source_code ≠ "")
    (h3 : pyStrip payload.file_name ≠ "") (h4 : pyStrip payload.pattern_name ≠ "")
    (hmal : extractTextRaw data = none) :
    (generate_unit_tests payload (.reply 200 data)).2 =
      .httpError 502 (.str ("Unexpected API response: " ++ pySlice (Json.dumps data) 800)) ∧
    (pySlice (Json.dumps data) 800).length ≤ 800 := by
  constructor
  · simp [generate_unit_tests, h1, h2, h3, h4, hmal]
  · exact pySlice_length_le _ _

/-- Witness for C4: a 200 reply with body `{}`. -/
theorem c4_witness :
    (pyStrip "P" ≠ "" ∧ pyStrip "S" ≠ "" ∧ pyStrip "a.go" ≠ "" ∧ pyStrip "N" ≠ "" ∧
      extractTextRaw (.obj []) = none) ∧
    (generate_unit_tests ⟨"P", "S", "a.go", "N", none⟩ (.reply 200 (.obj []))).2 =
      .httpError 502
        (.str ("Unexpected API response: " ++ pySlice (Json.dumps (.obj [])) 800)) ∧
    (pySlice (Json.dumps (Json.obj [])) 800).length ≤ 800 :=
  ⟨⟨by decide, by decide, by decide, by decide, rfl⟩,
   (c4_malformed_reply_502_truncated ⟨"P", "S", "a.go", "N", none⟩ (.obj [])
     (by decide) (by decide) (by decide) (by decide) rfl).1,
   (c4_malformed_reply_502_truncated ⟨"P", "S", "a.go", "N", none⟩ (.obj [])
     (by decide) (by decide) (by decide) (by decide) rfl).2⟩

/-- Claim C8: for every valid request, whatever the upstream outcome, the
single outbound request carries the fixed 60-second timeout, and when the
transport times out the handler fails with the typed timeout failure
(httpx timeout exception propagating out of the handler). -/
theorem c8_fixed_timeout_and_typed_failure (payload : UTGenerationRequest)
    (h1 : pyStrip payload.pattern_content ≠ "") (h2 : pyStrip payload.source_code ≠ "")
    (h3 : pyStrip payload.file_name ≠ "") (h4 : pyStrip payload.pattern_name ≠ "") :
    (∀ upstream, (generate_unit_tests payload upstream).1 =
      some ⟨60, requestBody payload⟩) ∧
    (generate_unit_tests payload .timeout).2 = .raised "httpx.TimeoutException" := by
  constructor
  · intro upstream
    cases upstream with
    | timeout => simp [generate_unit_tests, h1, h2, h3, h4]
    | reply status data =>
      by_cases hst : status = 200
      · subst hst
        cases hE : extractTextRaw data <;>
          simp [generate_unit_tests, h1, h2, h3, h4, hE]
      · cases hM : upstreamErrorMsg data <;>
          simp [generate_unit_tests, h1, h2, h3, h4, hst, hM]
  · simp [generate_unit_tests, h1, h2, h3, h4]

/-- Witness for C8: the scenario request, timed-out outbound call. -/
theorem c8_witness :
    (pyStrip "P" ≠ "" ∧ pyStrip "S" ≠ "" ∧ pyStrip "a.go" ≠ "" ∧ pyStrip "N" ≠ "") ∧
    (generate_unit_tests ⟨"P", "S", "a.go", "N", none⟩ .timeout).1 =
      some ⟨60, requestBody ⟨"P", "S", "a.go", "N", none⟩⟩ ∧
    (generate_unit_tests ⟨"P", "S", "a.go", "N", none⟩ .timeout).2 =
      .raised "httpx.TimeoutException" :=
  ⟨⟨by decide, by decide, by decide, by decide⟩,
   (c8_fixed_timeout_and_typed_failure ⟨"P", "S", "a.go", "N", none⟩
     (by decide) (by decide) (by decide) (by decide)).1 .timeout,
   (c8_fixed_timeout_and_typed_failure ⟨"P", "S", "a.go", "N", none⟩
     (by decide) (by decide) (by decide) (by decide)).2⟩
